import Mathlib

/-!
Verification of the course-outline backfill admin actions
(cms/djangoapps/contentstore/outlines_backfill.py and
cms/djangoapps/contentstore/admin.py) and of the certificate models
exercised by lms/djangoapps/certificates/tests/test_models.py.

The admin actions are embedded as pure functions from a queryset of course
keys to the list of celery tasks they enqueue, the backfill count they
compute and the message they send to the user via message_user.  The
external predicate key_supports_outlines is a parameter.
-/

namespace OutlineBackfill

/-- A course key as seen by the admin actions: the actions only ever read its
string form (str(course_key)) and pass it to key_supports_outlines. -/
structure CourseKey where
  str : String
  deriving DecidableEq, Repr

/-- A celery task enqueued (via .delay) by one of the admin actions. -/
inductive CeleryTask where
  | update_outline_from_modulestore (course_key : String)
  | update_multiple_outlines_from_modulestore (course_keys : List String)
  | update_all_outlines_from_modulestore
  deriving DecidableEq, Repr

/-- The observable outcome of running a backfill admin action: the tasks it
enqueued, the backfills counter it computed, and the message_user text. -/
structure ActionResult where
  tasks : List CeleryTask
  backfills : Nat
  user_message : String
  deriving DecidableEq, Repr

/-- Threshold from outlines_backfill.py: at this many selected courses or
more, a single task-launching task is enqueued instead of one per course. -/
def TASK_TO_LAUNCH_TASKS_THRESHOLD : Nat := 20

/-- The message_user text built at the end of backfill_course_outlines_subset:
plural_suffix is "s" exactly when backfills > 1. -/
def backfillMessage (backfills : Nat) : String :=
  let plural_suffix := if backfills > 1 then "s" else ""
  s!"Successfully requested {backfills} course outline{plural_suffix} to be backfilled."

/-- The per-course loop shared by both files' backfill_course_outlines_subset:
for each course key, if key_supports_outlines holds, enqueue
update_outline_from_modulestore_task.delay(str(course_key)) and increment
backfills; otherwise only log and skip.  Returns the enqueued tasks in loop
order together with the final backfills counter. -/
def subsetLoop (key_supports_outlines : CourseKey → Bool) :
    List CourseKey → List CeleryTask × Nat
  | [] => ([], 0)
  | course_key :: rest =>
    let r := subsetLoop key_supports_outlines rest
    if key_supports_outlines course_key then
      (CeleryTask.update_outline_from_modulestore course_key.str :: r.1, r.2 + 1)
    else
      r

/-- backfill_course_outlines_subset from outlines_backfill.py (lines 78-105):
if the queryset holds at least TASK_TO_LAUNCH_TASKS_THRESHOLD course keys,
enqueue one update_multiple_outlines_from_modulestore_task carrying all the
keys as strings and count them all; otherwise run the per-course loop.  In
both branches, message_user reports the backfills counter. -/
def backfill_course_outlines_subset (key_supports_outlines : CourseKey → Bool)
    (queryset : List CourseKey) : ActionResult :=
  let all_course_keys_qs := queryset
  if all_course_keys_qs.length ≥ TASK_TO_LAUNCH_TASKS_THRESHOLD then
    let backfills := all_course_keys_qs.length
    { tasks := [CeleryTask.update_multiple_outlines_from_modulestore
        (all_course_keys_qs.map (fun course_key => course_key.str))],
      backfills := backfills,
      user_message := backfillMessage backfills }
  else
    let r := subsetLoop key_supports_outlines all_course_keys_qs
    { tasks := r.1, backfills := r.2, user_message := backfillMessage r.2 }

/-- backfill_course_outlines_all from outlines_backfill.py (lines 109-115):
it simply calls backfill_course_outlines_subset; the overridden
changelist_view has already replaced the selection with all CourseOverviews,
so the argument here is the list of all course keys. -/
def backfill_course_outlines_all (key_supports_outlines : CourseKey → Bool)
    (all_course_keys : List CourseKey) : ActionResult :=
  backfill_course_outlines_subset key_supports_outlines all_course_keys

/-- Decides whether a task has one of the two shapes the spec documents as
the only boundary contracts: update_outline_from_modulestore_task with a
single course-key string, or update_multiple_outlines_from_modulestore_task
with a list of course-key strings. -/
def isDocumentedTaskShape : CeleryTask → Bool
  | CeleryTask.update_outline_from_modulestore _ => true
  | CeleryTask.update_multiple_outlines_from_modulestore _ => true
  | CeleryTask.update_all_outlines_from_modulestore => false

end OutlineBackfill

namespace AdminModule

open OutlineBackfill

/-- backfill_course_outlines_subset from admin.py (lines 51-74): this version
has no threshold branch; it always runs the per-course loop and then reports
the backfills counter via message_user. -/
def backfill_course_outlines_subset (key_supports_outlines : CourseKey → Bool)
    (queryset : List CourseKey) : ActionResult :=
  let all_course_keys_qs := queryset
  let r := subsetLoop key_supports_outlines all_course_keys_qs
  { tasks := r.1, backfills := r.2, user_message := backfillMessage r.2 }

/-- backfill_course_outlines_all from admin.py (lines 77-82): it ignores the
queryset and enqueues update_all_outlines_from_modulestore_task.delay() with
no arguments; it sends no message_user. -/
def backfill_course_outlines_all (_queryset : List CourseKey) : List CeleryTask :=
  [CeleryTask.update_all_outlines_from_modulestore]

/-- An admin HTTP request, carried through the ReadOnlyAdminMixin methods.
The mixin never inspects it. -/
structure AdminRequest where
  user : String
  deriving DecidableEq, Repr

/-- The table of CourseOverview records the CourseOutlineBackfill proxy model
reads from. -/
structure CourseOverviewState where
  overviews : List OutlineBackfill.CourseKey
  deriving DecidableEq, Repr

/-- ReadOnlyAdminMixin.has_add_permission: always False. -/
def has_add_permission (_request : AdminRequest) : Bool := false

/-- ReadOnlyAdminMixin.has_delete_permission: always False, for any object. -/
def has_delete_permission (_request : AdminRequest)
    (_obj : Option OutlineBackfill.CourseKey) : Bool := false

/-- ReadOnlyAdminMixin.get_actions: the actions dict of the superclass with
the delete_selected key removed when present.  Dict keys are unique, so the
deletion removes every occurrence of the key. -/
def get_actions (super_actions : List String) : List String :=
  if "delete_selected" ∈ super_actions then
    super_actions.filter (fun a => a ≠ "delete_selected")
  else
    super_actions

/-- ReadOnlyAdminMixin.save_model: the body is pass, so the CourseOverview
table is returned unchanged. -/
def save_model (s : CourseOverviewState) (_request : AdminRequest)
    (_obj : OutlineBackfill.CourseKey) (_form : Nat) (_change : Bool) :
    CourseOverviewState := s

/-- ReadOnlyAdminMixin.delete_model: the body is pass. -/
def delete_model (s : CourseOverviewState) (_request : AdminRequest)
    (_obj : OutlineBackfill.CourseKey) : CourseOverviewState := s

/-- ReadOnlyAdminMixin.save_related: the body is pass. -/
def save_related (s : CourseOverviewState) (_request : AdminRequest)
    (_form : Nat) (_change : Bool) : CourseOverviewState := s

/-- An interaction reachable through the CourseOutlineBackfill admin: add and
delete attempts (guarded by the permission methods), the three save/delete
hooks, and running an action from the changelist (guarded by get_actions). -/
inductive AdminInteraction where
  | addAttempt (request : AdminRequest) (obj : OutlineBackfill.CourseKey)
  | deleteAttempt (request : AdminRequest) (obj : OutlineBackfill.CourseKey)
  | saveModelCall (request : AdminRequest) (obj : OutlineBackfill.CourseKey)
      (form : Nat) (change : Bool)
  | deleteModelCall (request : AdminRequest) (obj : OutlineBackfill.CourseKey)
  | saveRelatedCall (request : AdminRequest) (form : Nat) (change : Bool)
  | runAction (name : String) (queryset : List OutlineBackfill.CourseKey)
  deriving DecidableEq, Repr

/-- Effect of one admin interaction on the CourseOverview table.  Adds and
deletes happen only when the corresponding permission method allows them, and
the built-in delete_selected action only when get_actions still offers it.
The two backfill actions only enqueue celery tasks and call message_user, so
they leave the table untouched. -/
def applyInteraction (base_actions : List String) (i : AdminInteraction)
    (s : CourseOverviewState) : CourseOverviewState :=
  match i with
  | AdminInteraction.addAttempt request obj =>
    if has_add_permission request then { overviews := obj :: s.overviews } else s
  | AdminInteraction.deleteAttempt request obj =>
    if has_delete_permission request (some obj) then
      { overviews := s.overviews.filter (fun k => k ≠ obj) }
    else s
  | AdminInteraction.saveModelCall request obj form change =>
    save_model s request obj form change
  | AdminInteraction.deleteModelCall request obj => delete_model s request obj
  | AdminInteraction.saveRelatedCall request form change =>
    save_related s request form change
  | AdminInteraction.runAction name queryset =>
    if name = "delete_selected" then
      if name ∈ get_actions base_actions then
        { overviews := s.overviews.filter (fun k => !(queryset.contains k)) }
      else s
    else s

end AdminModule

namespace Certificates

/-- Certificate status names, as listed in the spec's data-model section for
GeneratedCertificate (downloadable, notpassing, unverified, unavailable,
audit_passing, error, ...). -/
def downloadable : String := "downloadable"

def notpassing : String := "notpassing"

def unverified : String := "unverified"

def unavailable : String := "unavailable"

def audit_passing : String := "audit_passing"

def audit_notpassing : String := "audit_notpassing"

def error_status : String := "error"

/-- A value stored in an event payload dictionary: the tests compare a dict
holding the integer user id next to string values. -/
inductive PyVal where
  | intv (n : Nat)
  | strv (s : String)
  deriving DecidableEq, Repr

/-- Modelled from the spec: GeneratedCertificate is a "per-user-per-course
certificate record with status (downloadable, notpassing, unverified,
unavailable, audit_passing, error, ...), grade, verification id, mode"; the
model class in lms/djangoapps/certificates/models.py is not part of this
source tree. -/
structure GeneratedCertificate where
  user_id : Nat
  username : String
  course_id : String
  status : String
  grade : String
  verify_uuid : String
  mode : String
  download_url : String
  deriving DecidableEq, Repr

/-- An observable side effect of revoking a certificate: the emitted
certificate event, or the enqueued revoke_program_certificates task. -/
inductive CertEffect where
  | emit_certificate_event (event_name : String) (user_id : Nat)
      (course_id : String) (event_data : List (String × PyVal))
  | revoke_program_certificates (username : String) (course_id : String)
  deriving DecidableEq, Repr

/-- Modelled from the spec: invalidation of a GeneratedCertificate "triggers
downstream revocation" and emits a revocation event; the implementation in
lms/djangoapps/certificates/models.py is not part of this source tree.  The
shared revocation step records the new status (and grade, when one is
given), emits a certificate event named revoked for the user and the
stringified course key with the payload fixed by the unit tests, and, when
learner credential issuance is enabled, enqueues revoke_program_certificates
with (user.username, str(course_id)). -/
def revoke_certificate (learner_issuance_enabled : Bool)
    (cert : GeneratedCertificate) (status : String) (grade : Option String)
    (source : String) : GeneratedCertificate × List CertEffect :=
  let cert' := { cert with
    status := status,
    grade := grade.getD "",
    download_url := "" }
  let event_data : List (String × PyVal) :=
    [("user_id", PyVal.intv cert.user_id),
     ("course_id", PyVal.strv cert.course_id),
     ("certificate_id", PyVal.strv cert.verify_uuid),
     ("enrollment_mode", PyVal.strv cert.mode),
     ("source", PyVal.strv source)]
  let effects :=
    [CertEffect.emit_certificate_event "revoked" cert.user_id cert.course_id
       event_data]
    ++ (if learner_issuance_enabled then
          [CertEffect.revoke_program_certificates cert.username cert.course_id]
        else [])
  (cert', effects)

/-- Modelled from the spec: GeneratedCertificate.invalidate marks the
certificate invalid, persisting the unavailable status and triggering the
shared revocation step. -/
def invalidate (learner_issuance_enabled : Bool) (cert : GeneratedCertificate)
    (source : String) : GeneratedCertificate × List CertEffect :=
  revoke_certificate learner_issuance_enabled cert unavailable none source

/-- Modelled from the spec: GeneratedCertificate.mark_notpassing records the
failing grade and revokes with the notpassing status. -/
def mark_notpassing (learner_issuance_enabled : Bool)
    (cert : GeneratedCertificate) (grade : String) (source : String) :
    GeneratedCertificate × List CertEffect :=
  revoke_certificate learner_issuance_enabled cert notpassing (some grade) source

/-- Modelled from the spec: GeneratedCertificate.mark_unverified revokes with
the unverified status. -/
def mark_unverified (learner_issuance_enabled : Bool)
    (cert : GeneratedCertificate) (source : String) :
    GeneratedCertificate × List CertEffect :=
  revoke_certificate learner_issuance_enabled cert unverified none source

/-- Decides whether an effect is an emitted certificate event. -/
def isEmitEvent : CertEffect → Bool
  | CertEffect.emit_certificate_event _ _ _ _ => true
  | CertEffect.revoke_program_certificates _ _ => false

/-- The database state the certificate managers read: the existing
CourseOverview records (by course id) and the GeneratedCertificate rows. -/
structure CertDB where
  course_overviews : List String
  certificates : List GeneratedCertificate
  deriving DecidableEq, Repr

/-- Modelled from the spec: the statuses the eligible manager filters out
("filtering semantics of a default vs. eligible manager"; audit certificates
such as audit_passing are ineligible). -/
def ineligible_statuses : List String := [audit_passing, audit_notpassing]

/-- The default manager GeneratedCertificate.objects filtered by user: every
certificate of the user, regardless of status or course existence. -/
def objects_filter_user (db : CertDB) (user_id : Nat) :
    List GeneratedCertificate :=
  db.certificates.filter (fun c => c.user_id = user_id)

/-- Modelled from the spec: GeneratedCertificate.eligible_available_certificates
keeps only the user's certificates whose status is eligible (not an audit
status) and whose course still has a CourseOverview row. -/
def eligible_available_filter_user (db : CertDB) (user_id : Nat) :
    List GeneratedCertificate :=
  db.certificates.filter (fun c =>
    c.user_id = user_id
      ∧ ¬ (c.status ∈ ineligible_statuses)
      ∧ c.course_id ∈ db.course_overviews)

/-- Deleting a course's CourseOverview row: the certificates table is not
touched. -/
def delete_course_overview (db : CertDB) (course_id : String) : CertDB :=
  { db with course_overviews :=
      db.course_overviews.filter (fun cid => cid ≠ course_id) }

/-- Modelled from the spec: ExampleCertificate tracks generation status
(success/error) per course; the model class in
lms/djangoapps/certificates/models.py is not part of this source tree.
The optional download_url/error_reason fields default to null. -/
structure ExampleCertificate where
  description : String
  status : String
  download_url : Option String
  error_reason : Option String
  deriving DecidableEq, Repr

def STATUS_STARTED : String := "started"

def STATUS_SUCCESS : String := "success"

def STATUS_ERROR : String := "error"

/-- The valid ExampleCertificate statuses. -/
def EXAMPLE_CERT_STATUS_CHOICES : List String :=
  [STATUS_STARTED, STATUS_SUCCESS, STATUS_ERROR]

/-- The ValueError message raised for an unknown status string. -/
def invalid_status_message (status : String) : String :=
  "The status " ++ status ++ " is not a valid status."

/-- Modelled from the spec: ExampleCertificate.update_status records the new
generation status together with the result fields, "raising on unknown
status string" (a ValueError, embedded as Except.error). -/
def update_status (cert : ExampleCertificate) (status : String)
    (download_url : Option String) (error_reason : Option String) :
    Except String ExampleCertificate :=
  if status ∈ EXAMPLE_CERT_STATUS_CHOICES then
    Except.ok { cert with
      status := status,
      download_url := download_url,
      error_reason := error_reason }
  else
    Except.error (invalid_status_message status)

/-- Modelled from the spec: ExampleCertificate.status_dict summarises the
record as a dictionary holding the description and status, plus the
download_url when one is set and the error_reason when one is set. -/
def status_dict (cert : ExampleCertificate) : List (String × String) :=
  [("description", cert.description), ("status", cert.status)]
    ++ (match cert.error_reason with
        | some r => [("error_reason", r)]
        | none => [])
    ++ (match cert.download_url with
        | some u => [("download_url", u)]
        | none => [])

/-- Modelled from the spec: CertificateHtmlViewConfiguration is a "versioned
JSON blob"; its clean method validates the configuration string with the
external JSON decoder (json.loads), embedded here as an oracle predicate. -/
structure CertificateHtmlViewConfiguration where
  configuration : String
  deriving DecidableEq, Repr

/-- Modelled from the spec: clean raises ValidationError ("bad JSON config")
exactly when the configuration string does not decode as JSON. -/
def clean (is_valid_json : String → Bool)
    (config : CertificateHtmlViewConfiguration) : Except String Unit :=
  if is_valid_json config.configuration then
    Except.ok ()
  else
    Except.error "Must be valid JSON string."

end Certificates

section BackfillTheorems

open OutlineBackfill

/-- The per-course loop enqueues exactly one single-course task per supported
key, in queryset order, and counts exactly the supported keys. -/
theorem subsetLoop_spec (key_supports_outlines : CourseKey → Bool)
    (ks : List CourseKey) :
    subsetLoop key_supports_outlines ks =
      ((ks.filter key_supports_outlines).map
          (fun k => CeleryTask.update_outline_from_modulestore k.str),
       (ks.filter key_supports_outlines).length) := by
  induction ks with
  | nil => rfl
  | cons k rest ih =>
    by_cases h : key_supports_outlines k <;>
      simp [subsetLoop, List.filter_cons, h, ih]

/-- Every task enqueued by outlines_backfill.py's
backfill_course_outlines_subset has one of the two documented shapes. -/
theorem subset_tasks_documented (key_supports_outlines : CourseKey → Bool)
    (queryset : List CourseKey) (t : CeleryTask)
    (ht : t ∈ (OutlineBackfill.backfill_course_outlines_subset
        key_supports_outlines queryset).tasks) :
    isDocumentedTaskShape t = true := by
  unfold OutlineBackfill.backfill_course_outlines_subset at ht
  by_cases h : queryset.length ≥ TASK_TO_LAUNCH_TASKS_THRESHOLD
  · simp [h] at ht
    simp [ht, isDocumentedTaskShape]
  · simp [h, subsetLoop_spec] at ht
    rcases ht with ⟨k, _, hk⟩
    simp [← hk, isDocumentedTaskShape]

/-- C1: backfill_course_outlines_subset (outlines_backfill.py) enqueues
exactly one update_multiple_outlines_from_modulestore_task carrying all the
selected keys as strings when at least TASK_TO_LAUNCH_TASKS_THRESHOLD (20)
keys are selected; otherwise it enqueues one
update_outline_from_modulestore_task per selected key supporting outlines,
skipping the unsupported keys; in both cases message_user reports the
backfills count. -/
theorem claim1_subset_threshold_dispatch (key_supports_outlines : CourseKey → Bool)
    (queryset : List CourseKey) :
    (queryset.length ≥ TASK_TO_LAUNCH_TASKS_THRESHOLD →
      (OutlineBackfill.backfill_course_outlines_subset key_supports_outlines
          queryset).tasks
        = [CeleryTask.update_multiple_outlines_from_modulestore
            (queryset.map (fun k => k.str))]
      ∧ (OutlineBackfill.backfill_course_outlines_subset key_supports_outlines
          queryset).backfills = queryset.length
      ∧ (OutlineBackfill.backfill_course_outlines_subset key_supports_outlines
          queryset).user_message = backfillMessage queryset.length)
    ∧ (queryset.length < TASK_TO_LAUNCH_TASKS_THRESHOLD →
      (OutlineBackfill.backfill_course_outlines_subset key_supports_outlines
          queryset).tasks
        = (queryset.filter key_supports_outlines).map
            (fun k => CeleryTask.update_outline_from_modulestore k.str)
      ∧ (OutlineBackfill.backfill_course_outlines_subset key_supports_outlines
          queryset).backfills = (queryset.filter key_supports_outlines).length
      ∧ (OutlineBackfill.backfill_course_outlines_subset key_supports_outlines
          queryset).user_message
          = backfillMessage (queryset.filter key_supports_outlines).length) := by
  constructor
  · intro h
    simp [OutlineBackfill.backfill_course_outlines_subset, h]
  · intro h
    have h' : ¬ (queryset.length ≥ TASK_TO_LAUNCH_TASKS_THRESHOLD) := by omega
    simp [OutlineBackfill.backfill_course_outlines_subset, h', subsetLoop_spec]

/-- C1 witness: at 20 selected keys the single batch task is enqueued; at 2
selected keys one task per supported key is enqueued. -/
theorem claim1_subset_threshold_dispatch_witness :
    (OutlineBackfill.backfill_course_outlines_subset (fun k => k.str != "old")
        (List.replicate 20 (CourseKey.mk "k"))).tasks
      = [CeleryTask.update_multiple_outlines_from_modulestore
          ((List.replicate 20 (CourseKey.mk "k")).map (fun k => k.str))]
    ∧ (OutlineBackfill.backfill_course_outlines_subset (fun k => k.str != "old")
        [CourseKey.mk "a", CourseKey.mk "old"]).tasks
      = ([CourseKey.mk "a", CourseKey.mk "old"].filter (fun k => k.str != "old")).map
          (fun k => CeleryTask.update_outline_from_modulestore k.str) :=
  ⟨((claim1_subset_threshold_dispatch (fun k => k.str != "old")
      (List.replicate 20 (CourseKey.mk "k"))).1 (by decide)).1,
   ((claim1_subset_threshold_dispatch (fun k => k.str != "old")
      [CourseKey.mk "a", CourseKey.mk "old"]).2 (by decide)).1⟩

/-- C2 counterexample: with 20 selected keys, none of which supports
outlines, the batch branch runs, so every unsupported key's string is put in
the enqueued task payload and the reported count is 20, not 0 — contradicting
the claim that an unsupported key gets no task and does not contribute to
the reported backfill count. -/
theorem claim2_unsupported_skip_counterexample :
    (OutlineBackfill.backfill_course_outlines_subset (fun _ => false)
        (List.replicate 20 (CourseKey.mk "unsupported"))).tasks
      = [CeleryTask.update_multiple_outlines_from_modulestore
          (List.replicate 20 "unsupported")]
    ∧ (OutlineBackfill.backfill_course_outlines_subset (fun _ => false)
        (List.replicate 20 (CourseKey.mk "unsupported"))).backfills = 20 := by
  constructor <;> rfl

/-- C2 (amended): when fewer than TASK_TO_LAUNCH_TASKS_THRESHOLD keys are
selected, a selected key that does not support outlines gets no task and does
not contribute to the reported count; when the threshold is reached, the key
is instead included in the single batch payload and counted. -/
theorem claim2_unsupported_skipped_below_threshold
    (key_supports_outlines : CourseKey → Bool) (queryset : List CourseKey)
    (k : CourseKey) (hk : key_supports_outlines k = false) :
    (queryset.length < TASK_TO_LAUNCH_TASKS_THRESHOLD →
      CeleryTask.update_outline_from_modulestore k.str ∉
          (OutlineBackfill.backfill_course_outlines_subset key_supports_outlines
            queryset).tasks
      ∧ (OutlineBackfill.backfill_course_outlines_subset key_supports_outlines
          queryset).backfills = (queryset.filter key_supports_outlines).length)
    ∧ (queryset.length ≥ TASK_TO_LAUNCH_TASKS_THRESHOLD → k ∈ queryset →
      k.str ∈ queryset.map (fun k' => k'.str)
      ∧ (OutlineBackfill.backfill_course_outlines_subset key_supports_outlines
          queryset).tasks
        = [CeleryTask.update_multiple_outlines_from_modulestore
            (queryset.map (fun k' => k'.str))]
      ∧ (OutlineBackfill.backfill_course_outlines_subset key_supports_outlines
          queryset).backfills = queryset.length) := by
  constructor
  · intro hlen
    have h' : ¬ (queryset.length ≥ TASK_TO_LAUNCH_TASKS_THRESHOLD) := by omega
    refine ⟨?_, ?_⟩
    · intro hmem
      simp [OutlineBackfill.backfill_course_outlines_subset, h',
        subsetLoop_spec] at hmem
      rcases hmem with ⟨k', ⟨_, hsup⟩, hstr⟩
      have hkk : k' = k := by
        cases k'; cases k
        simp_all
      rw [hkk] at hsup
      rw [hk] at hsup
      exact Bool.false_ne_true hsup
    · simp [OutlineBackfill.backfill_course_outlines_subset, h', subsetLoop_spec]
  · intro hlen hmem
    refine ⟨List.mem_map_of_mem _ hmem, ?_, ?_⟩ <;>
      simp [OutlineBackfill.backfill_course_outlines_subset, hlen]

/-- C2 witness: with two selected keys, one of which does not support
outlines, the unsupported key gets no task and the count is the number of
supported keys. -/
theorem claim2_unsupported_skipped_below_threshold_witness :
    CeleryTask.update_outline_from_modulestore (CourseKey.mk "bad").str ∉
        (OutlineBackfill.backfill_course_outlines_subset
          (fun k => k.str != "bad")
          [CourseKey.mk "a", CourseKey.mk "bad"]).tasks
    ∧ (OutlineBackfill.backfill_course_outlines_subset (fun k => k.str != "bad")
        [CourseKey.mk "a", CourseKey.mk "bad"]).backfills
      = ([CourseKey.mk "a", CourseKey.mk "bad"].filter
          (fun k => k.str != "bad")).length :=
  (claim2_unsupported_skipped_below_threshold (fun k => k.str != "bad")
    [CourseKey.mk "a", CourseKey.mk "bad"] (CourseKey.mk "bad") (by decide)).1
    (by decide)

/-- C3: in the batch branch (at least 20 selected keys) no
key_supports_outlines filtering happens: the single task payload is the
string of every selected key, supported or not, and the reported count is
the total number of selected keys. -/
theorem claim3_batch_branch_no_filtering
    (key_supports_outlines : CourseKey → Bool) (queryset : List CourseKey)
    (h : queryset.length ≥ TASK_TO_LAUNCH_TASKS_THRESHOLD) :
    (OutlineBackfill.backfill_course_outlines_subset key_supports_outlines
        queryset).tasks
      = [CeleryTask.update_multiple_outlines_from_modulestore
          (queryset.map (fun k => k.str))]
    ∧ (OutlineBackfill.backfill_course_outlines_subset key_supports_outlines
        queryset).backfills = queryset.length
    ∧ (OutlineBackfill.backfill_course_outlines_subset key_supports_outlines
        queryset).user_message = backfillMessage queryset.length := by
  simp [OutlineBackfill.backfill_course_outlines_subset, h]

/-- C3 witness: 20 keys, none supported, are all carried in the batch payload
and all counted. -/
theorem claim3_batch_branch_no_filtering_witness :
    (OutlineBackfill.backfill_course_outlines_subset (fun _ => false)
        (List.replicate 20 (CourseKey.mk "c"))).tasks
      = [CeleryTask.update_multiple_outlines_from_modulestore
          ((List.replicate 20 (CourseKey.mk "c")).map (fun k => k.str))]
    ∧ (OutlineBackfill.backfill_course_outlines_subset (fun _ => false)
        (List.replicate 20 (CourseKey.mk "c"))).backfills
      = (List.replicate 20 (CourseKey.mk "c")).length
    ∧ (OutlineBackfill.backfill_course_outlines_subset (fun _ => false)
        (List.replicate 20 (CourseKey.mk "c"))).user_message
      = backfillMessage (List.replicate 20 (CourseKey.mk "c")).length :=
  claim3_batch_branch_no_filtering (fun _ => false)
    (List.replicate 20 (CourseKey.mk "c")) (by decide)

/-- C4 counterexample: admin.py's backfill_course_outlines_all enqueues
update_all_outlines_from_modulestore_task with no arguments, a task outside
the two documented shapes. -/
theorem claim4_only_two_tasks_counterexample :
    AdminModule.backfill_course_outlines_all []
      = [CeleryTask.update_all_outlines_from_modulestore]
    ∧ isDocumentedTaskShape CeleryTask.update_all_outlines_from_modulestore
      = false := by
  constructor <;> rfl

/-- C4 (amended): the actions in outlines_backfill.py and admin.py's
backfill_course_outlines_subset enqueue only
update_outline_from_modulestore_task with a single course-key string or
update_multiple_outlines_from_modulestore_task with a list of course-key
strings, but admin.py's backfill_course_outlines_all additionally enqueues
update_all_outlines_from_modulestore_task with no arguments. -/
theorem claim4_enqueued_task_shapes (key_supports_outlines : CourseKey → Bool)
    (queryset : List CourseKey) :
    (∀ t ∈ (OutlineBackfill.backfill_course_outlines_subset
        key_supports_outlines queryset).tasks, isDocumentedTaskShape t = true)
    ∧ (∀ t ∈ (OutlineBackfill.backfill_course_outlines_all
        key_supports_outlines queryset).tasks, isDocumentedTaskShape t = true)
    ∧ (∀ t ∈ (AdminModule.backfill_course_outlines_subset
        key_supports_outlines queryset).tasks, isDocumentedTaskShape t = true)
    ∧ AdminModule.backfill_course_outlines_all queryset
      = [CeleryTask.update_all_outlines_from_modulestore] := by
  refine ⟨fun t ht => subset_tasks_documented _ _ t ht,
    fun t ht => subset_tasks_documented _ _ t ht, fun t ht => ?_, rfl⟩
  simp [AdminModule.backfill_course_outlines_subset, subsetLoop_spec] at ht
  rcases ht with ⟨k, _, hk⟩
  simp [← hk, OutlineBackfill.isDocumentedTaskShape]

/-- C4 witness: a task enqueued by the per-course branch has a documented
shape, and admin.py's all-courses action enqueues the undocumented task. -/
theorem claim4_enqueued_task_shapes_witness :
    isDocumentedTaskShape (CeleryTask.update_outline_from_modulestore "a")
      = true
    ∧ AdminModule.backfill_course_outlines_all [CourseKey.mk "a"]
      = [CeleryTask.update_all_outlines_from_modulestore] :=
  ⟨(claim4_enqueued_task_shapes (fun _ => true) [CourseKey.mk "a"]).1
      (CeleryTask.update_outline_from_modulestore "a") (by decide),
   (claim4_enqueued_task_shapes (fun _ => true) [CourseKey.mk "a"]).2.2.2⟩

/-- delete_selected never survives ReadOnlyAdminMixin.get_actions. -/
theorem delete_selected_removed (base_actions : List String) :
    "delete_selected" ∉ AdminModule.get_actions base_actions := by
  intro hmem
  by_cases h : "delete_selected" ∈ base_actions
  · simp [AdminModule.get_actions, h] at hmem
  · simp [AdminModule.get_actions, h] at hmem

/-- C10: no interaction reachable through the CourseOutlineBackfill admin
changes the CourseOverview table: both permission methods answer False, the
save/delete hooks are no-ops, delete_selected is removed from the available
actions, and hence every interaction leaves the state unchanged. -/
theorem claim10_read_only_admin_frame (base_actions : List String)
    (i : AdminModule.AdminInteraction) (s : AdminModule.CourseOverviewState)
    (request : AdminModule.AdminRequest) (obj : CourseKey) :
    AdminModule.applyInteraction base_actions i s = s
    ∧ AdminModule.has_add_permission request = false
    ∧ AdminModule.has_delete_permission request (some obj) = false
    ∧ "delete_selected" ∉ AdminModule.get_actions base_actions := by
  refine ⟨?_, rfl, rfl, delete_selected_removed base_actions⟩
  cases i with
  | addAttempt request obj =>
    simp [AdminModule.applyInteraction, AdminModule.has_add_permission]
  | deleteAttempt request obj =>
    simp [AdminModule.applyInteraction, AdminModule.has_delete_permission]
  | saveModelCall request obj form change => rfl
  | deleteModelCall request obj => rfl
  | saveRelatedCall request form change => rfl
  | runAction name queryset =>
    by_cases hn : name = "delete_selected"
    · subst hn
      simp [AdminModule.applyInteraction, delete_selected_removed]
    · simp [AdminModule.applyInteraction, hn]

end BackfillTheorems

section CertificateTheorems

open Certificates

/-- C5: invalidate marks the certificate invalid — its persisted status
becomes unavailable — and, when learner credential issuance is enabled, the
revoke_program_certificates task is enqueued exactly once, with
(user.username, str(course_id)). -/
theorem claim5_invalidate_revokes (learner_issuance_enabled : Bool)
    (cert : GeneratedCertificate) (source : String) :
    (invalidate learner_issuance_enabled cert source).1.status = unavailable
    ∧ (learner_issuance_enabled = true →
      ((invalidate learner_issuance_enabled cert source).2.filter
          (fun e => !(isEmitEvent e)))
        = [CertEffect.revoke_program_certificates cert.username
            cert.course_id]) := by
  constructor
  · rfl
  · intro h
    subst h
    simp [invalidate, revoke_certificate, isEmitEvent]

/-- C5 witness: a concrete certificate invalidated with issuance enabled. -/
theorem claim5_invalidate_revokes_witness :
    (invalidate true
        (GeneratedCertificate.mk 7 "learner" "course-v1:a+b+c" downloadable
          "0.95" "uuid-1" "verified" "http://x") "invalidated_test").1.status
      = unavailable
    ∧ ((invalidate true
        (GeneratedCertificate.mk 7 "learner" "course-v1:a+b+c" downloadable
          "0.95" "uuid-1" "verified" "http://x") "invalidated_test").2.filter
          (fun e => !(isEmitEvent e)))
      = [CertEffect.revoke_program_certificates "learner" "course-v1:a+b+c"] :=
  ⟨(claim5_invalidate_revokes true
      (GeneratedCertificate.mk 7 "learner" "course-v1:a+b+c" downloadable
        "0.95" "uuid-1" "verified" "http://x") "invalidated_test").1,
   (claim5_invalidate_revokes true
      (GeneratedCertificate.mk 7 "learner" "course-v1:a+b+c" downloadable
        "0.95" "uuid-1" "verified" "http://x") "invalidated_test").2 rfl⟩

/-- C6: each of invalidate, mark_notpassing and mark_unverified emits exactly
one certificate event, named revoked, for the user and the stringified course
key, whose event_data is exactly the dictionary with keys user_id,
course_id, certificate_id, enrollment_mode and source, and no others. -/
theorem claim6_revoked_event_payload (learner_issuance_enabled : Bool)
    (cert : GeneratedCertificate) (grade source : String) :
    ((invalidate learner_issuance_enabled cert source).2.filter isEmitEvent
      = [CertEffect.emit_certificate_event "revoked" cert.user_id cert.course_id
          [("user_id", PyVal.intv cert.user_id),
           ("course_id", PyVal.strv cert.course_id),
           ("certificate_id", PyVal.strv cert.verify_uuid),
           ("enrollment_mode", PyVal.strv cert.mode),
           ("source", PyVal.strv source)]])
    ∧ ((mark_notpassing learner_issuance_enabled cert grade source).2.filter
        isEmitEvent
      = [CertEffect.emit_certificate_event "revoked" cert.user_id cert.course_id
          [("user_id", PyVal.intv cert.user_id),
           ("course_id", PyVal.strv cert.course_id),
           ("certificate_id", PyVal.strv cert.verify_uuid),
           ("enrollment_mode", PyVal.strv cert.mode),
           ("source", PyVal.strv source)]])
    ∧ ((mark_unverified learner_issuance_enabled cert source).2.filter
        isEmitEvent
      = [CertEffect.emit_certificate_event "revoked" cert.user_id cert.course_id
          [("user_id", PyVal.intv cert.user_id),
           ("course_id", PyVal.strv cert.course_id),
           ("certificate_id", PyVal.strv cert.verify_uuid),
           ("enrollment_mode", PyVal.strv cert.mode),
           ("source", PyVal.strv source)]]) := by
  cases learner_issuance_enabled <;>
    exact ⟨rfl, rfl, rfl⟩

/-- C7: the eligible manager returns only the user's certificates with an
eligible (non-audit) status and an existing CourseOverview, the default
manager returns all of the user's certificates regardless of status, and
deleting a CourseOverview changes the eligible results but never the default
manager's results. -/
theorem claim7_eligible_vs_default_manager (db : CertDB) (user_id : Nat)
    (c : GeneratedCertificate) (course_id : String) :
    (c ∈ eligible_available_filter_user db user_id →
      c ∈ objects_filter_user db user_id
      ∧ ¬ (c.status ∈ ineligible_statuses)
      ∧ c.course_id ∈ db.course_overviews)
    ∧ (c ∈ objects_filter_user db user_id ↔
      c ∈ db.certificates ∧ c.user_id = user_id)
    ∧ objects_filter_user (delete_course_overview db course_id) user_id
      = objects_filter_user db user_id
    ∧ (c ∈ eligible_available_filter_user
        (delete_course_overview db course_id) user_id →
      c.course_id ≠ course_id) := by
  refine ⟨?_, ?_, rfl, ?_⟩
  · intro h
    simp [eligible_available_filter_user, List.mem_filter] at h
    rcases h with ⟨hmem, huser, hstat, hover⟩
    exact ⟨List.mem_filter.mpr ⟨hmem, by simp [huser]⟩, hstat, hover⟩
  · simp [objects_filter_user, List.mem_filter]
  · intro h
    simp [eligible_available_filter_user, delete_course_overview,
      List.mem_filter] at h
    exact h.2.2.2.2

/-- C7 witness: a concrete database in which an eligible certificate is
returned by both managers, and deleting an unrelated course's overview keeps
it eligible. -/
theorem claim7_eligible_vs_default_manager_witness :
    (GeneratedCertificate.mk 7 "learner" "course-a" downloadable "0.9"
        "uuid-1" "verified" ""
      ∈ objects_filter_user
        (CertDB.mk ["course-a"]
          [GeneratedCertificate.mk 7 "learner" "course-a" downloadable "0.9"
            "uuid-1" "verified" ""]) 7
    ∧ ¬ ((GeneratedCertificate.mk 7 "learner" "course-a" downloadable "0.9"
        "uuid-1" "verified" "").status ∈ ineligible_statuses)
    ∧ (GeneratedCertificate.mk 7 "learner" "course-a" downloadable "0.9"
        "uuid-1" "verified" "").course_id ∈ ["course-a"])
    ∧ (GeneratedCertificate.mk 7 "learner" "course-a" downloadable "0.9"
        "uuid-1" "verified" "").course_id ≠ "course-b" :=
  ⟨(claim7_eligible_vs_default_manager
      (CertDB.mk ["course-a"]
        [GeneratedCertificate.mk 7 "learner" "course-a" downloadable "0.9"
          "uuid-1" "verified" ""]) 7
      (GeneratedCertificate.mk 7 "learner" "course-a" downloadable "0.9"
        "uuid-1" "verified" "") "course-b").1 (by decide),
   (claim7_eligible_vs_default_manager
      (CertDB.mk ["course-a"]
        [GeneratedCertificate.mk 7 "learner" "course-a" downloadable "0.9"
          "uuid-1" "verified" ""]) 7
      (GeneratedCertificate.mk 7 "learner" "course-a" downloadable "0.9"
        "uuid-1" "verified" "") "course-b").2.2.2 (by decide)⟩

/-- C8: after update_status STATUS_SUCCESS with a download url the status
dictionary is exactly description, status, download_url; after update_status
STATUS_ERROR with an error reason it is exactly description, status,
error_reason. -/
theorem claim8_status_dict_shape (cert : ExampleCertificate) (u r : String) :
    (update_status cert STATUS_SUCCESS (some u) none).map status_dict
      = Except.ok [("description", cert.description),
          ("status", STATUS_SUCCESS), ("download_url", u)]
    ∧ (update_status cert STATUS_ERROR none (some r)).map status_dict
      = Except.ok [("description", cert.description),
          ("status", STATUS_ERROR), ("error_reason", r)] := by
  exact ⟨rfl, rfl⟩

/-- C9: update_status answers a ValueError whose message mentions "status"
for every status string outside the valid choices, and clean answers a
ValidationError whenever the configuration string is not valid JSON. -/
theorem claim9_validation_errors (cert : ExampleCertificate) (status : String)
    (download_url error_reason : Option String)
    (is_valid_json : String → Bool)
    (config : CertificateHtmlViewConfiguration)
    (hs : ¬ (status ∈ EXAMPLE_CERT_STATUS_CHOICES))
    (hj : is_valid_json config.configuration = false) :
    update_status cert status download_url error_reason
      = Except.error (invalid_status_message status)
    ∧ (∃ p q, invalid_status_message status = p ++ "status" ++ q)
    ∧ clean is_valid_json config
      = Except.error "Must be valid JSON string." := by
  refine ⟨?_, ?_, ?_⟩
  · simp [update_status, hs]
  · refine ⟨"The ", " " ++ status ++ " is not a valid status.", ?_⟩
    show "The status " ++ status ++ " is not a valid status."
        = "The " ++ "status" ++ (" " ++ status ++ " is not a valid status.")
    apply String.ext
    simp only [String.data_append]
    rfl
  · simp [clean, hj]

/-- C9 witness: the unknown status string "invalid" is rejected with a
message mentioning "status", and a configuration that does not decode as
JSON is rejected by clean. -/
theorem claim9_validation_errors_witness :
    update_status (ExampleCertificate.mk "test" STATUS_STARTED none none)
        "invalid" none none
      = Except.error (invalid_status_message "invalid")
    ∧ (∃ p q, invalid_status_message "invalid" = p ++ "status" ++ q)
    ∧ clean (fun _ => false)
        (CertificateHtmlViewConfiguration.mk "\x7b\"bad\":\"test\"")
      = Except.error "Must be valid JSON string." :=
  claim9_validation_errors (ExampleCertificate.mk "test" STATUS_STARTED none none)
    "invalid" none none (fun _ => false)
    (CertificateHtmlViewConfiguration.mk "\x7b\"bad\":\"test\"")
    (by decide) rfl

end CertificateTheorems
